import Mathlib

/-!
# Crowbar driver: allocation, polling and release

A shallow embedding of `drivers/crowbar/crowbar.go`.  The remote Crowbar API
(`ocb`), the key generator and the file system are external: every answer they
give is an input of the model, and every request the driver sends is recorded
in a list of `Call`s.
-/

namespace Crowbar

/-! ## Constants -/

def SOURCE_POOL : String := "system"
def TARGET_POOL : String := "docker-machines"
def READY_STATE : String := "docker-ready"
def OS_INSTALL : String := "crowbar-installed-node"
def INSTALL_OS : String := "ubuntu-14.04"

/-! ## Data model -/

/-- An error handed back by an external collaborator (the remote API, the key
generator, the file system): its message. -/
abbrev ExtErr := String

/-- Values of Go's `error` that `Create` returns: the three errors it builds
itself with `errors.New`, or an error of an external collaborator passed on. -/
inductive Error where
  | noMachines
  | unsupportedOS
  | nodeStateError
  | remote (msg : String)
  deriving DecidableEq, Repr

/-- The machine states the driver reports (`state.State`). -/
inductive State where
  | None
  | Starting
  | Running
  | Stopped
  | Error
  deriving DecidableEq, Repr

/-- The fields of `ocb.Node` the driver reads or writes. -/
structure Node where
  ID : Nat
  Name : String
  Description : String
  DeploymentID : Nat
  Admin : Bool
  System : Bool
  Available : Bool
  Alive : Bool
  deriving DecidableEq, Repr

/-- The fields of `ocb.Deployment` the driver reads. -/
structure Deployment where
  ID : Nat
  Name : String
  deriving DecidableEq, Repr

/-- The fields of `ocb.Role` the driver reads. -/
structure Role where
  ID : Nat
  Name : String
  deriving DecidableEq, Repr

/-- The fields of `ocb.NodeRole` the driver reads or writes.  Fields a
composite literal leaves out hold their zero value. -/
structure NodeRole where
  DeploymentID : Nat := 0
  NodeID : Nat := 0
  RoleID : Nat := 0
  Order : Nat := 0
  NodeError : Bool := false
  State : Int := 0
  deriving DecidableEq, Repr

/-- The fields of `Driver` used by the modelled operations. -/
structure Driver where
  MachineName : String
  Node : String
  SourcePool : String
  TargetPool : String
  TargetOS : String
  ReadyState : String
  deriving DecidableEq, Repr

/-- `NewDriver`: the driver with its default pools, ready state and OS. -/
def NewDriver (machineName : String) : Driver :=
  { MachineName := machineName, Node := "", SourcePool := SOURCE_POOL,
    TargetPool := TARGET_POOL, TargetOS := INSTALL_OS, ReadyState := READY_STATE }

/-- The package-level variables: the cached `node` (nil or not) and the two
deployments as `InitDeployments` resolved them. -/
structure Globals where
  node : Option Node
  target : Deployment
  source : Deployment
  deriving DecidableEq, Repr

/-- A request sent to an external collaborator. -/
inductive Call where
  | nodeGet (name : String)
  | nodeUpdate (n : Node) (ok : Bool)
  | nodePropose
  | roleGet (name : String)
  | nodeRoleAdd (nr : NodeRole)
  | addSSHkey (slot : Nat) (key : String)
  | setOS (os : String)
  | nodeCommit
  | nodeRefresh
  | nodeAddress (network : String)
  | knownHostsRemove (ip : List Nat)
  | getState
  | nodeRetry
  | nodeRole (name : String)
  | nodeRoleDelete (name : String)
  | nodeRedeploy
  deriving DecidableEq, Repr

/-- How a Go function call ends: it returns a value, or the runtime panics
(index or slice bound out of range). -/
inductive Outcome (α : Type) where
  | returned (v : α)
  | panicked
  deriving DecidableEq, Repr

/-- The bytes of one character in UTF-8. -/
def encodeChar (c : Char) : List Nat :=
  let n := c.toNat
  if n < 0x80 then [n]
  else if n < 0x800 then [0xC0 + n / 0x40, 0x80 + n % 0x40]
  else if n < 0x10000 then
    [0xE0 + n / 0x1000, 0x80 + n / 0x40 % 0x40, 0x80 + n % 0x40]
  else
    [0xF0 + n / 0x40000, 0x80 + n / 0x1000 % 0x40, 0x80 + n / 0x40 % 0x40,
     0x80 + n % 0x40]

/-- The bytes of a list of characters in UTF-8. -/
def bytesOf : List Char → List Nat
  | [] => []
  | c :: cs => encodeChar c ++ bytesOf cs

/-- The bytes a Go `string` holds: a string is a sequence of bytes, here the
UTF-8 encoding of its text, and is indexed and sliced by byte. -/
def bytes (s : String) : List Nat := bytesOf s.data

/-- Go's `len` of a string: its number of bytes. -/
def len (s : String) : Nat := (bytes s).length

/-! ## GetState -/

/-- What the remote API answers during one `GetState`: the result of
`n.Get(d.Node)` (the error, and the `Alive` flag of the node fetched) and the
result of `n.Role(d.ReadyState)`: the pointer `nr`, nil (`none`) or pointing
to a NodeRole, and the error `err1`.  `Remove` tests the pointer returned by
the same call against nil. -/
structure Snapshot where
  getErr : Option ExtErr
  Alive : Bool
  nr : Option NodeRole
  err1 : Option ExtErr
  deriving DecidableEq, Repr

/-- `Driver.GetState`.  The condition `nr.NodeError || err1 != nil` reads
through the pointer `nr` first: on a nil pointer the run-time panics. -/
def GetState (snap : Snapshot) : Outcome (State × Option ExtErr) :=
  match snap.getErr with
  | some e => Outcome.returned (State.Error, some e)
  | none =>
    if snap.Alive then
      let err1 := snap.err1
      match snap.nr with
      | none => Outcome.panicked
      | some nr =>
        if nr.NodeError || err1 != none then
          Outcome.returned (State.Error, err1)
        else
          match nr.State with
          | -1 => Outcome.returned (State.Error, err1)
          | 0 => Outcome.returned (State.Running, err1)
          | _ => Outcome.returned (State.Starting, err1)
    else
      Outcome.returned (State.Stopped, none)

/-- The classification rule of the lifecycle poller, as the specification words
it, over the answers of the remote API: whether the fetch of the node failed,
whether the node is alive, the error flag and the run state of the ready-state
NodeRole, and whether looking it up failed. -/
def classifySpec (fetchFailed alive nodeError lookupFailed : Bool) (runState : Int) :
    State :=
  if fetchFailed then State.Error
  else if !alive then State.Stopped
  else if nodeError || lookupFailed || runState == -1 then State.Error
  else if runState == 0 then State.Running
  else State.Starting

/-! ## InitNode and GetIP -/

/-- `Driver.InitNode`: when no node is cached, a node is fetched by name and
cached whatever the fetch answered (`fetched`: the node as `node.Get` filled it
in, and its error). -/
def InitNode (g : Globals) (fetched : Node × Option ExtErr) : Globals × Option ExtErr :=
  match g.node with
  | some _ => (g, none)
  | none => ({ g with node := some fetched.1 }, fetched.2)

/-- `Driver.GetIP`, given the answer of `node.Address("admin")`: the second
address with its last three bytes cut off.  The string returned is given by
its bytes, as a slice need not end on a character boundary. -/
def GetIP (addresses : List String) (err : Option ExtErr) :
    Outcome (List Nat × Option ExtErr) :=
  match addresses with
  | _ :: addr :: _ =>
    let sz := len addr
    if sz < 3 then Outcome.panicked
    else Outcome.returned ((bytes addr).take (sz - 3), err)
  | _ => Outcome.panicked

/-! ## createKeyPair -/

/-- What key generation and the read of the public key file answer. -/
structure KeyFiles where
  generateErr : Option ExtErr
  pk : String
  readErr : Option ExtErr
  deriving DecidableEq, Repr

/-- `Driver.createKeyPair`. -/
def createKeyPair (k : KeyFiles) : String × Option ExtErr :=
  match k.generateErr with
  | some e => ("", some e)
  | none =>
    let publicKey := k.pk
    match k.readErr with
    | some e => ("", some e)
    | none => (publicKey, none)

/-! ## Create: the scan of the source pool -/

/-- The eligibility test of `Create`. -/
def eligible (c : Node) : Bool := !c.Admin && !c.System && c.Available

/-- The scan loop of `Create`: `for i := 0; i < len(candidates) && node == nil`.
The second argument is the package-level `node` the loop tests and assigns. -/
def scan : List Node → Option Node → Option Node
  | [], node => node
  | _ :: _, some n => some n
  | candidate :: rest, none =>
    scan rest (if eligible candidate then some candidate else none)

/-! ## Create: the wait loop -/

/-- One result of `GetState`: the state and the error. -/
abbrev Obs := State × Option ExtErr

/-- The variables of the wait loop of `Create`, the counter `i` apart.  The
counters are Go `int`s; each is decremented only under the loop condition,
which requires it positive, so none ever leaves the natural numbers.  `seen`
holds the pair `(s, err)` the body found at each of its executions (the state
is the one its first statement logs); `calls` the requests sent. -/
structure LoopVars where
  s : State
  err : Option ExtErr
  errorcount : Nat
  readycount : Nat
  seen : List Obs
  calls : List Call
  deriving DecidableEq, Repr

/-- How the wait loop and the two statements after it end: how `Create`
ends, the value of `i` left, and the other variables. -/
structure LoopEnd where
  result : Outcome (Option Error)
  i : Nat
  vars : LoopVars
  deriving DecidableEq, Repr

/-- The statements after the wait loop. -/
def afterLoop (i : Nat) (v : LoopVars) : LoopEnd :=
  { result := Outcome.returned
      (if v.errorcount = 0 then some Error.nodeStateError else v.err.map Error.remote),
    i := i, vars := v }

/-- The body of the wait loop where `err` is nil, and the request sent by the
post statement. -/
def body (v : LoopVars) : LoopVars :=
  let v0 := { v with seen := v.seen ++ [(v.s, v.err)] }
  let v1 :=
    if v.s = State.Error then
      { v0 with errorcount := v0.errorcount - 1,
                calls := v0.calls ++ [Call.nodeRetry] }
    else if v.s = State.Running then
      { v0 with readycount := v0.readycount - 1 }
    else v0
  { v1 with calls := v1.calls ++ [Call.getState] }

/-- The variables after the body and the post statement `s, err = d.GetState()`
that returned `o`. -/
def tick (o : Obs) (v : LoopVars) : LoopVars :=
  { body v with s := o.1, err := o.2 }

/-- The wait loop of `Create`,
`for s, i := state.None, 90; i>0 && errorcount>0 && readycount>0; s, err = d.GetState()`,
run from counter value `i`.  `poll k` is how the `k`-th call of `GetState`
from here on ends. -/
def waitLoop (poll : Nat → Outcome Obs) : Nat → LoopVars → LoopEnd
  | 0, v => afterLoop 0 v
  | i + 1, v =>
    if 0 < v.errorcount ∧ 0 < v.readycount then
      match v.err with
      | some e =>
        { result := Outcome.returned (some (Error.remote e)), i := i + 1,
          vars := { v with seen := v.seen ++ [(v.s, v.err)] } }
      | none =>
        match poll 0 with
        | Outcome.panicked => { result := Outcome.panicked, i := i, vars := body v }
        | Outcome.returned o => waitLoop (fun k => poll (k + 1)) i (tick o v)
    else afterLoop (i + 1) v

/-- The variables on entry of the wait loop: `errorcount := 3`,
`readycount := 2`, `s := state.None`, and `err` as the statements before left
it. -/
def loopInit (err : Option ExtErr) : LoopVars :=
  { s := State.None, err := err, errorcount := 3, readycount := 2,
    seen := [], calls := [] }

/-- The wait loop as `Create` runs it: 90 ticks. -/
def waitReady (poll : Nat → Outcome Obs) (err : Option ExtErr) : LoopEnd :=
  waitLoop poll 90 (loopInit err)

/-! ## Create -/

/-- Everything the external collaborators answer during one `Create`. -/
structure CreateEnv where
  /-- `source.Nodes()`; its error is dropped by `Create`. -/
  candidates : List Node
  /-- `node.Update()`. -/
  updateErr : Option ExtErr
  /-- `osrole.Get(OS_INSTALL)`: the role as filled in, and the error. -/
  osrole : Role × Option ExtErr
  /-- `osinstall.Add()`. -/
  osinstallAddErr : Option ExtErr
  /-- `role.Get(d.ReadyState)`. -/
  role : Role × Option ExtErr
  /-- `ready.Add()`. -/
  readyAddErr : Option ExtErr
  /-- Key generation and the read of the public key. -/
  keys : KeyFiles
  /-- `ocb.OsAvailable`. -/
  osAvailable : String → Bool
  /-- `node.Refresh()`: the node as re-read. -/
  refreshed : Node → Node
  /-- `node.Address("admin")`. -/
  addresses : List String
  addressErr : Option ExtErr
  /-- The answers to the successive `GetState` calls. -/
  snapshots : Nat → Snapshot

/-- How one `Create` ends: its outcome, the requests it sent in order, the
package-level `node`, the driver, and the end of the wait loop when it was
reached. -/
structure CreateRun where
  outcome : Outcome (Option Error)
  calls : List Call
  node : Option Node
  driver : Driver
  loop : Option LoopEnd
  deriving DecidableEq, Repr

/-- The node as `Create` claims it. -/
def claim (d : Driver) (target : Deployment) (n : Node) : Node :=
  { n with Description := "Docker-Machine " ++ d.MachineName,
           DeploymentID := target.ID }

/-- `Driver.Create`, after `InitDeployments` has resolved `target` and
`source`. -/
def Create (d : Driver) (g : Globals) (env : CreateEnv) : CreateRun :=
  match scan env.candidates g.node with
  | none =>
    { outcome := Outcome.returned (some Error.noMachines), calls := [],
      node := none, driver := d, loop := none }
  | some picked =>
    let node1 := claim d g.target picked
    match env.updateErr with
    | some e =>
      { outcome := Outcome.returned (some (Error.remote e)),
        calls := [Call.nodeUpdate node1 false],
        node := some node1, driver := d, loop := none }
    | none =>
      let d1 := { d with Node := node1.Name }
      let keypair := createKeyPair env.keys
      let sshkey := keypair.1
      let err := keypair.2
      let calls1 :=
        [ Call.nodeUpdate node1 true, Call.nodePropose,
          Call.roleGet OS_INSTALL,
          Call.nodeRoleAdd { DeploymentID := g.target.ID, NodeID := node1.ID,
                             RoleID := env.osrole.1.ID, Order := 1000 },
          Call.roleGet d.ReadyState,
          Call.nodeRoleAdd { DeploymentID := g.target.ID, NodeID := node1.ID,
                             RoleID := env.role.1.ID, Order := 2000 },
          Call.addSSHkey 1 sshkey ]
      if len sshkey < 25 then
        { outcome := Outcome.panicked, calls := calls1, node := some node1,
          driver := d1, loop := none }
      else if env.osAvailable d.TargetOS then
        let node2 := env.refreshed node1
        let calls2 := calls1 ++
          [ Call.setOS d.TargetOS, Call.nodeCommit, Call.nodeRefresh,
            Call.nodeAddress "admin" ]
        match GetIP env.addresses env.addressErr with
        | Outcome.panicked =>
          { outcome := Outcome.panicked, calls := calls2, node := some node2,
            driver := d1, loop := none }
        | Outcome.returned (ip, _) =>
          let w := waitReady (fun k => GetState (env.snapshots k)) err
          { outcome := w.result,
            calls := calls2 ++ [Call.knownHostsRemove ip] ++ w.vars.calls,
            node := some node2, driver := d1, loop := some w }
      else
        { outcome := Outcome.returned (some Error.unsupportedOS), calls := calls1,
          node := some node1, driver := d1, loop := none }

/-! ## Remove -/

/-- Everything the external collaborators answer during one `Remove`. -/
structure RemoveEnv where
  /-- `node.Get(d.Node)` inside `InitNode`. -/
  fetched : Node × Option ExtErr
  /-- `node.Update()`. -/
  updateErr : Option ExtErr
  /-- `node.Role(name)`: whether the pointer returned is non-nil. -/
  roleFound : String → Bool

/-- How one `Remove` ends. -/
structure RemoveRun where
  result : Option ExtErr
  calls : List Call
  node : Option Node
  deriving DecidableEq, Repr

/-- The role names `Remove` looks up: `roles := [...]string{...}`. -/
def removeRoles : List String := ["docker-ready", "docker-prep"]

/-- The node as `Remove` releases it. -/
def release (source : Deployment) (n : Node) : Node :=
  { n with Available := true, Description := "Released by Docker-Machine",
           DeploymentID := source.ID }

/-- The loop of `Remove` over the role names: look each up and delete it when
found. -/
def removeRoleCalls (found : String → Bool) : List String → List Call
  | [] => []
  | r :: rest =>
    (if found r then [Call.nodeRole r, Call.nodeRoleDelete r] else [Call.nodeRole r])
      ++ removeRoleCalls found rest

/-- The node `Remove` works on once `InitNode` has run: the cached node, or
the one just fetched. -/
def removeNode (g : Globals) (env : RemoveEnv) : Node :=
  match (InitNode g env.fetched).1.node with
  | some n => n
  | none => env.fetched.1

/-- `Driver.Remove`, after `InitDeployments` has resolved `target` and
`source`.  The error of `InitNode` is overwritten by that of `node.Update()`,
which is the value returned. -/
def Remove (d : Driver) (g : Globals) (env : RemoveEnv) : RemoveRun :=
  let node1 := release g.source (removeNode g env)
  { result := env.updateErr,
    calls := (if g.node = none then [Call.nodeGet d.Node] else [])
             ++ [Call.nodePropose, Call.nodeUpdate node1 (env.updateErr == none),
                 Call.addSSHkey 1 "key-removed"]
             ++ removeRoleCalls env.roleFound removeRoles
             ++ [Call.nodeRedeploy, Call.nodeCommit],
    node := some node1 }

/-! ## The remote record of the node -/

/-- The node record the remote API holds after a list of requests, a
successful `node.Update()` storing the record it carries; `none` while no
update has succeeded. -/
def persisted : List Call → Option Node
  | [] => none
  | Call.nodeUpdate n true :: rest =>
    match persisted rest with
    | some m => some m
    | none => some n
  | _ :: rest => persisted rest

/-! ## Auxiliary definitions for the wait loop -/

/-- What the body of the wait loop finds at its `k`-th execution: first the
initial pair, then, in order, what the calls of `GetState` ended with. -/
def pending {α : Type} (poll : Nat → α) (first : α) : Nat → α
  | 0 => first
  | k + 1 => poll k

/-- A result of `GetState` the wait loop passes over without a change of its
budgets: no error, and a state that is neither `Error` nor `Running`. -/
def idle (o : Outcome Obs) : Prop :=
  ∃ s, o = Outcome.returned (s, none) ∧ s ≠ State.Error ∧ s ≠ State.Running

/-! ## Concrete runs -/

/-- A free node of the source pool. -/
def nodeFree : Node :=
  { ID := 7, Name := "d07", Description := "", DeploymentID := 1,
    Admin := false, System := false, Available := true, Alive := true }

/-- The administrative node. -/
def nodeAdmin : Node :=
  { ID := 1, Name := "admin", Description := "", DeploymentID := 1,
    Admin := true, System := false, Available := false, Alive := true }

/-- Resolved pools, no node cached. -/
def globalsFresh : Globals :=
  { node := none, target := { ID := 2, Name := TARGET_POOL },
    source := { ID := 1, Name := SOURCE_POOL } }

/-- Resolved pools, the administrative node cached by an earlier operation of
the process. -/
def globalsCached : Globals := { globalsFresh with node := some nodeAdmin }

/-- Key generation succeeds. -/
def keysOk : KeyFiles :=
  { generateErr := none, pk := "ssh-rsa AAAAB3NzaC1yc2EAAAADAQABAAABAQC7 docker", readErr := none }

/-- Key generation fails. -/
def keysFail : KeyFiles :=
  { generateErr := some "ssh-keygen: exit status 1", pk := "", readErr := none }

/-- A live node whose ready-state NodeRole has the given run state. -/
def snapOf (runState : Int) : Snapshot :=
  { getErr := none, Alive := true, nr := some { State := runState }, err1 := none }

/-- A run in which every collaborator succeeds, over the given listing and
the given run states of the ready-state NodeRole. -/
def envOk (candidates : List Node) (runStates : Nat → Int) : CreateEnv :=
  { candidates := candidates, updateErr := none,
    osrole := ({ ID := 3, Name := OS_INSTALL }, none), osinstallAddErr := none,
    role := ({ ID := 4, Name := READY_STATE }, none), readyAddErr := none,
    keys := keysOk, osAvailable := fun _ => true, refreshed := fun n => n,
    addresses := ["fe80::5054:ff:fe12:3456/64", "192.168.124.81/24"],
    addressErr := none, snapshots := fun k => snapOf (runStates k) }

/-- The node is alive, the lookup of its ready-state NodeRole fails and hands
back a nil pointer. -/
def snapNilRole : Snapshot :=
  { getErr := none, Alive := true, nr := none, err1 := some "404 Not Found" }

/-- Run state in progress at the first 87 calls of `GetState`, then error. -/
def runStatesLateErrors (k : Nat) : Int := if k < 87 then 1 else -1

/-- Run state success at the first call of `GetState`, then in progress. -/
def runStatesOneRunning : Nat → Int
  | 0 => 0
  | _ => 1

/-- Run states `success, in progress, success`, then in progress for ever. -/
def runStatesFlap : Nat → Int
  | 0 => 0
  | 1 => 1
  | 2 => 0
  | _ => 1

/-- The requested OS is not registered in the catalog; all else succeeds. -/
def envNoOS (candidates : List Node) : CreateEnv :=
  { envOk candidates (fun _ => 0) with osAvailable := fun _ => false }

/-- Every role lookup and binding of `Create` fails; all else succeeds and the
node is ready at once. -/
def envRolesFail : CreateEnv :=
  { envOk [nodeFree] (fun _ => 0) with
    osrole := ({ ID := 0, Name := "" }, some "404 Not Found"),
    osinstallAddErr := some "422 Unprocessable Entity",
    role := ({ ID := 0, Name := "" }, some "404 Not Found"),
    readyAddErr := some "422 Unprocessable Entity" }

/-- Key generation fails; all else succeeds. -/
def envKeyFail : CreateEnv :=
  { envOk [nodeFree] (fun _ => 0) with keys := keysFail }

/-- A `Remove` in which the update is accepted and every role looked up is
found. -/
def envRemoveOk : RemoveEnv :=
  { fetched := (claim (NewDriver "m1") globalsFresh.target nodeFree, none),
    updateErr := none, roleFound := fun _ => true }

/-- The package-level variables as a complete `Create` leaves them. -/
def globalsAfterCreate : Globals :=
  { globalsFresh with
    node := (Create (NewDriver "m1") globalsFresh (envOk [nodeFree] (fun _ => 0))).node }

/-! ## Lemmas on the wait loop -/

theorem waitLoop_exit (poll : Nat → Outcome Obs) (i : Nat) (v : LoopVars)
    (h : ¬ (0 < v.errorcount ∧ 0 < v.readycount)) :
    waitLoop poll i v = afterLoop i v := by
  cases i with
  | zero => rfl
  | succ i => simp only [waitLoop, h, if_false]

theorem waitLoop_abort (poll : Nat → Outcome Obs) (i : Nat) (v : LoopVars) (e : ExtErr)
    (h : 0 < v.errorcount ∧ 0 < v.readycount) (he : v.err = some e) :
    waitLoop poll (i + 1) v =
      { result := Outcome.returned (some (Error.remote e)), i := i + 1,
        vars := { v with seen := v.seen ++ [(v.s, v.err)] } } := by
  simp only [waitLoop, h, and_self, if_true, he]

theorem waitLoop_panic (poll : Nat → Outcome Obs) (i : Nat) (v : LoopVars)
    (h : 0 < v.errorcount ∧ 0 < v.readycount) (he : v.err = none)
    (hp : poll 0 = Outcome.panicked) :
    waitLoop poll (i + 1) v = { result := Outcome.panicked, i := i, vars := body v } := by
  simp only [waitLoop, h, and_self, if_true, he, hp]

theorem waitLoop_step (poll : Nat → Outcome Obs) (i : Nat) (v : LoopVars) (o : Obs)
    (h : 0 < v.errorcount ∧ 0 < v.readycount) (he : v.err = none)
    (hp : poll 0 = Outcome.returned o) :
    waitLoop poll (i + 1) v = waitLoop (fun k => poll (k + 1)) i (tick o v) := by
  simp only [waitLoop, h, and_self, if_true, he, hp]

theorem body_errorcount (v : LoopVars) :
    (body v).errorcount = if v.s = State.Error then v.errorcount - 1 else v.errorcount := by
  unfold body
  by_cases h1 : v.s = State.Error
  · simp [h1]
  · by_cases h2 : v.s = State.Running <;> simp [h1, h2]

theorem body_readycount (v : LoopVars) :
    (body v).readycount
      = if v.s = State.Running then v.readycount - 1 else v.readycount := by
  unfold body
  by_cases h1 : v.s = State.Error
  · simp [h1]
  · by_cases h2 : v.s = State.Running <;> simp [h1, h2]

theorem body_seen (v : LoopVars) : (body v).seen = v.seen ++ [(v.s, v.err)] := by
  unfold body
  by_cases h1 : v.s = State.Error
  · simp [h1]
  · by_cases h2 : v.s = State.Running <;> simp [h1, h2]

theorem body_polls (v : LoopVars) :
    (body v).calls.count Call.getState = v.calls.count Call.getState + 1 := by
  unfold body
  by_cases h1 : v.s = State.Error
  · simp [h1, List.count_append, List.count_singleton]
  · by_cases h2 : v.s = State.Running <;> simp [h1, h2, List.count_append]

/-- Induction along the executions of the wait loop: a property of the end of
the loop holds when it holds where the condition fails, where the body
returns, where `GetState` panics, and is carried back over one execution of
the body. -/
theorem waitLoop_induct {P : (Nat → Outcome Obs) → Nat → LoopVars → LoopEnd → Prop}
    (hexit : ∀ poll i v, (i = 0 ∨ ¬ (0 < v.errorcount ∧ 0 < v.readycount)) →
      P poll i v (afterLoop i v))
    (habort : ∀ poll i v e, 0 < v.errorcount ∧ 0 < v.readycount → v.err = some e →
      P poll (i + 1) v
        { result := Outcome.returned (some (Error.remote e)), i := i + 1,
          vars := { v with seen := v.seen ++ [(v.s, v.err)] } })
    (hpanic : ∀ poll i v, 0 < v.errorcount ∧ 0 < v.readycount → v.err = none →
      poll 0 = Outcome.panicked →
      P poll (i + 1) v { result := Outcome.panicked, i := i, vars := body v })
    (hstep : ∀ poll i v o r, 0 < v.errorcount ∧ 0 < v.readycount → v.err = none →
      poll 0 = Outcome.returned o →
      P (fun k => poll (k + 1)) i (tick o v) r → P poll (i + 1) v r) :
    ∀ poll i v, P poll i v (waitLoop poll i v) := by
  intro poll i
  induction i generalizing poll with
  | zero => intro v; exact hexit poll 0 v (Or.inl rfl)
  | succ i ih =>
    intro v
    by_cases h : 0 < v.errorcount ∧ 0 < v.readycount
    · cases he : v.err with
      | none =>
        cases hp : poll 0 with
        | panicked =>
          rw [waitLoop_panic poll i v h he hp]
          exact hpanic poll i v h he hp
        | returned o =>
          rw [waitLoop_step poll i v o h he hp]
          exact hstep poll i v o _ h he hp (ih _ _)
      | some e =>
        rw [waitLoop_abort poll i v e h he]
        exact habort poll i v e h he
    · rw [waitLoop_exit poll (i + 1) v h]
      exact hexit poll (i + 1) v (Or.inr h)

/-- Error budget: what is left of it, plus the `Error` states the body acted
on, stays constant. -/
theorem waitLoop_errorcount (poll : Nat → Outcome Obs) (i : Nat) (v : LoopVars) :
    (waitLoop poll i v).vars.errorcount
        + (waitLoop poll i v).vars.seen.count (State.Error, none)
      = v.errorcount + v.seen.count (State.Error, none) := by
  have hb : ∀ v : LoopVars, 0 < v.errorcount → v.err = none →
      (body v).errorcount + (body v).seen.count (State.Error, none)
        = v.errorcount + v.seen.count (State.Error, none) := by
    intro v hpos he
    rw [body_errorcount, body_seen, he]
    by_cases h1 : v.s = State.Error
    · simp [h1, List.count_append]
      omega
    · have : ¬ ((v.s, (none : Option ExtErr)) = (State.Error, none)) := by
        intro hc; exact h1 (congrArg Prod.fst hc)
      simp [h1, List.count_append, List.count_singleton, this]
  refine waitLoop_induct (P := fun _ _ v r =>
    r.vars.errorcount + r.vars.seen.count (State.Error, none)
      = v.errorcount + v.seen.count (State.Error, none)) ?_ ?_ ?_ ?_ poll i v
  · intro _ i v _; rfl
  · intro _ i v e _ he
    simp [he, List.count_append, List.count_singleton]
  · intro _ i v h he _
    exact hb v h.1 he
  · intro poll i v o r h he _ ih
    rw [ih]
    exact hb v h.1 he

/-- Confirm budget: what is left of it, plus the `Running` states the body
acted on, stays constant. -/
theorem waitLoop_readycount (poll : Nat → Outcome Obs) (i : Nat) (v : LoopVars) :
    (waitLoop poll i v).vars.readycount
        + (waitLoop poll i v).vars.seen.count (State.Running, none)
      = v.readycount + v.seen.count (State.Running, none) := by
  have hb : ∀ v : LoopVars, 0 < v.readycount → v.err = none →
      (body v).readycount + (body v).seen.count (State.Running, none)
        = v.readycount + v.seen.count (State.Running, none) := by
    intro v hpos he
    rw [body_readycount, body_seen, he]
    by_cases h1 : v.s = State.Running
    · simp [h1, List.count_append]
      omega
    · have : ¬ ((v.s, (none : Option ExtErr)) = (State.Running, none)) := by
        intro hc; exact h1 (congrArg Prod.fst hc)
      simp [h1, List.count_append, List.count_singleton, this]
  refine waitLoop_induct (P := fun _ _ v r =>
    r.vars.readycount + r.vars.seen.count (State.Running, none)
      = v.readycount + v.seen.count (State.Running, none)) ?_ ?_ ?_ ?_ poll i v
  · intro _ i v _; rfl
  · intro _ i v e _ he
    simp [he, List.count_append, List.count_singleton]
  · intro _ i v h he _
    exact hb v h.2 he
  · intro poll i v o r h he _ ih
    rw [ih]
    exact hb v h.2 he

/-- The failure `node state reported error` is returned exactly when the error
budget is zero at the end and the last `GetState` did not panic. -/
theorem waitLoop_result_iff (poll : Nat → Outcome Obs) (i : Nat) (v : LoopVars) :
    (waitLoop poll i v).result = Outcome.returned (some Error.nodeStateError)
      ↔ (waitLoop poll i v).vars.errorcount = 0
        ∧ (waitLoop poll i v).result ≠ Outcome.panicked := by
  refine waitLoop_induct (P := fun _ _ _ r =>
    r.result = Outcome.returned (some Error.nodeStateError)
      ↔ r.vars.errorcount = 0 ∧ r.result ≠ Outcome.panicked) ?_ ?_ ?_ ?_ poll i v
  · intro _ i v _
    by_cases h0 : v.errorcount = 0
    · simp [afterLoop, h0]
    · cases he : v.err <;> simp [afterLoop, h0, he]
  · intro _ i v e h _
    constructor
    · intro hc
      simp at hc
    · intro hc
      have : v.errorcount = 0 := hc.1
      omega
  · intro _ i v _ _ _
    simp
  · intro _ _ _ _ _ _ _ _ ih; exact ih

/-- How the wait loop can end: a panic, the failure
`node state reported error`, or the error variable, nil or not. -/
theorem waitLoop_result_cases (poll : Nat → Outcome Obs) (i : Nat) (v : LoopVars) :
    (waitLoop poll i v).result = Outcome.panicked
      ∨ (waitLoop poll i v).result = Outcome.returned (some Error.nodeStateError)
      ∨ ∃ oe : Option ExtErr,
          (waitLoop poll i v).result = Outcome.returned (oe.map Error.remote) := by
  refine waitLoop_induct (P := fun _ _ _ r =>
    r.result = Outcome.panicked
      ∨ r.result = Outcome.returned (some Error.nodeStateError)
      ∨ ∃ oe : Option ExtErr, r.result = Outcome.returned (oe.map Error.remote))
    ?_ ?_ ?_ ?_ poll i v
  · intro _ i v _
    by_cases h0 : v.errorcount = 0
    · right; left; simp [afterLoop, h0]
    · right; right; exact ⟨v.err, by simp [afterLoop, h0]⟩
  · intro _ i v e _ _
    right; right; exact ⟨some e, rfl⟩
  · intro _ i v _ _ _
    left; rfl
  · intro _ _ _ _ _ _ _ _ ih; exact ih

/-- With the error budget above zero at the end and no panic, the value
returned is the error of the last `GetState`. -/
theorem waitLoop_result_of_pos (poll : Nat → Outcome Obs) (i : Nat) (v : LoopVars)
    (h : 0 < (waitLoop poll i v).vars.errorcount)
    (hp : (waitLoop poll i v).result ≠ Outcome.panicked) :
    (waitLoop poll i v).result
      = Outcome.returned ((waitLoop poll i v).vars.err.map Error.remote) := by
  revert h hp
  refine waitLoop_induct (P := fun _ _ _ r =>
    0 < r.vars.errorcount → r.result ≠ Outcome.panicked →
      r.result = Outcome.returned (r.vars.err.map Error.remote)) ?_ ?_ ?_ ?_ poll i v
  · intro _ i v _ h _
    have : v.errorcount ≠ 0 := by
      have h' : 0 < v.errorcount := h
      omega
    simp [afterLoop, this]
  · intro _ i v e _ he _ _
    simp [he]
  · intro _ i v _ _ _ _ hp
    exact absurd rfl hp
  · intro _ _ _ _ _ _ _ _ ih; exact ih

/-- When every `GetState` returns with a nil error, the loop does not panic
and the error variable is nil at the end. -/
theorem waitLoop_returns (poll : Nat → Outcome Obs) (i : Nat) (v : LoopVars)
    (hv : v.err = none) (hpoll : ∀ k, ∃ s, poll k = Outcome.returned (s, none)) :
    (waitLoop poll i v).vars.err = none
      ∧ (waitLoop poll i v).result ≠ Outcome.panicked := by
  revert hv hpoll
  refine waitLoop_induct (P := fun poll _ v r =>
    v.err = none → (∀ k, ∃ s, poll k = Outcome.returned (s, none)) →
      r.vars.err = none ∧ r.result ≠ Outcome.panicked) ?_ ?_ ?_ ?_ poll i v
  · intro _ i v _ hv _
    exact ⟨hv, by simp [afterLoop]⟩
  · intro _ i v e _ he hv _
    rw [he] at hv; cases hv
  · intro poll i v _ _ hp _ hpoll
    obtain ⟨s, hs⟩ := hpoll 0
    rw [hp] at hs; cases hs
  · intro poll i v o r _ _ hp ih _ hpoll
    apply ih
    · obtain ⟨s, hs⟩ := hpoll 0
      rw [hp] at hs
      cases hs
      rfl
    · intro k; exact hpoll (k + 1)

/-- When the error budget is zero at the end, either it was zero from the
start and the body never ran, or the last pair the body acted on is an
`Error` state. -/
theorem waitLoop_last_error (poll : Nat → Outcome Obs) (i : Nat) (v : LoopVars)
    (h : (waitLoop poll i v).vars.errorcount = 0) :
    (v.errorcount = 0 ∧ (waitLoop poll i v).vars.seen = v.seen)
      ∨ (waitLoop poll i v).vars.seen.getLast? = some (State.Error, none) := by
  have hb : ∀ v : LoopVars, 0 < v.errorcount → v.err = none → (body v).errorcount = 0 →
      (body v).seen.getLast? = some (State.Error, none) := by
    intro v hpos he h0
    rw [body_errorcount] at h0
    rw [body_seen, he]
    by_cases h1 : v.s = State.Error
    · simp [h1]
    · simp [h1] at h0
      omega
  revert h
  refine waitLoop_induct (P := fun _ _ v r =>
    r.vars.errorcount = 0 → (v.errorcount = 0 ∧ r.vars.seen = v.seen)
      ∨ r.vars.seen.getLast? = some (State.Error, none)) ?_ ?_ ?_ ?_ poll i v
  · intro _ i v _ h
    exact Or.inl ⟨h, rfl⟩
  · intro _ i v e hc _ h
    have h' : v.errorcount = 0 := h
    omega
  · intro _ i v hc he _ h
    exact Or.inr (hb v hc.1 he h)
  · intro poll i v o r hc he _ ih h
    rcases ih h with ⟨h0, hs⟩ | hl
    · right
      rw [hs]
      exact hb v hc.1 he h0
    · exact Or.inr hl

/-- When the confirm budget is zero at the end, either it was zero from the
start and the body never ran, or the last pair the body acted on is a
`Running` state. -/
theorem waitLoop_last_running (poll : Nat → Outcome Obs) (i : Nat) (v : LoopVars)
    (h : (waitLoop poll i v).vars.readycount = 0) :
    (v.readycount = 0 ∧ (waitLoop poll i v).vars.seen = v.seen)
      ∨ (waitLoop poll i v).vars.seen.getLast? = some (State.Running, none) := by
  have hb : ∀ v : LoopVars, 0 < v.readycount → v.err = none → (body v).readycount = 0 →
      (body v).seen.getLast? = some (State.Running, none) := by
    intro v hpos he h0
    rw [body_readycount] at h0
    rw [body_seen, he]
    by_cases h1 : v.s = State.Running
    · simp [h1]
    · simp [h1] at h0
      omega
  revert h
  refine waitLoop_induct (P := fun _ _ v r =>
    r.vars.readycount = 0 → (v.readycount = 0 ∧ r.vars.seen = v.seen)
      ∨ r.vars.seen.getLast? = some (State.Running, none)) ?_ ?_ ?_ ?_ poll i v
  · intro _ i v _ h
    exact Or.inl ⟨h, rfl⟩
  · intro _ i v e hc _ h
    have h' : v.readycount = 0 := h
    omega
  · intro _ i v hc he _ h
    exact Or.inr (hb v hc.2 he h)
  · intro poll i v o r hc he _ ih h
    rcases ih h with ⟨h0, hs⟩ | hl
    · right
      rw [hs]
      exact hb v hc.2 he h0
    · exact Or.inr hl

/-- The two budgets are never both zero at the end when they were not both
zero at the start. -/
theorem waitLoop_not_both (poll : Nat → Outcome Obs) (i : Nat) (v : LoopVars)
    (h : 0 < v.errorcount ∨ 0 < v.readycount) :
    0 < (waitLoop poll i v).vars.errorcount ∨ 0 < (waitLoop poll i v).vars.readycount := by
  have hb : ∀ v : LoopVars, 0 < v.errorcount ∧ 0 < v.readycount →
      0 < (body v).errorcount ∨ 0 < (body v).readycount := by
    intro v hc
    rw [body_errorcount, body_readycount]
    by_cases h1 : v.s = State.Error
    · right; simp [h1]; exact hc.2
    · left; simp [h1]; exact hc.1
  revert h
  refine waitLoop_induct (P := fun _ _ v r =>
    0 < v.errorcount ∨ 0 < v.readycount →
      0 < r.vars.errorcount ∨ 0 < r.vars.readycount) ?_ ?_ ?_ ?_ poll i v
  · intro _ i v _ h; exact h
  · intro _ i v e _ _ h; exact h
  · intro _ i v hc _ _ _; exact hb v hc
  · intro poll i v o r hc _ _ ih _
    exact ih (hb v hc)

/-- The pairs the body acted on are the initial pair followed by the results
of the calls of `GetState`, in order and without a gap. -/
theorem waitLoop_seen (poll : Nat → Outcome Obs) (i : Nat) (v : LoopVars) :
    ∃ n, (waitLoop poll i v).vars.seen.map Outcome.returned
      = v.seen.map Outcome.returned
        ++ (List.range n).map (pending poll (Outcome.returned (v.s, v.err))) := by
  refine waitLoop_induct (P := fun poll _ v r =>
    ∃ n, r.vars.seen.map Outcome.returned
      = v.seen.map Outcome.returned
        ++ (List.range n).map (pending poll (Outcome.returned (v.s, v.err))))
    ?_ ?_ ?_ ?_ poll i v
  · intro _ i v _
    exact ⟨0, by simp [afterLoop]⟩
  · intro _ i v e _ _
    exact ⟨1, by simp [List.range_succ, pending]⟩
  · intro _ i v _ _ _
    exact ⟨1, by simp [body_seen, List.range_succ, pending]⟩
  · intro poll i v o r _ _ hp ih
    obtain ⟨n, hn⟩ := ih
    refine ⟨n + 1, ?_⟩
    rw [hn, List.range_succ_eq_map]
    have hs : (tick o v).seen = v.seen ++ [(v.s, v.err)] := body_seen v
    simp only [hs, List.map_cons, List.map_map, List.map_append, List.map_nil,
      List.append_assoc, List.singleton_append, pending]
    congr 2
    apply List.map_congr_left
    intro k _
    cases k with
    | zero =>
      show Outcome.returned ((tick o v).s, (tick o v).err) = poll 0
      rw [hp]; rfl
    | succ k => rfl

/-- A pair with a non-nil error among those the body acted on ends the loop
with that error. -/
theorem waitLoop_fetch_error (poll : Nat → Outcome Obs) (i : Nat) (v : LoopVars)
    (hv : ∀ o ∈ v.seen, o.2 = none) (s : State) (e : ExtErr)
    (h : (s, some e) ∈ (waitLoop poll i v).vars.seen) :
    (waitLoop poll i v).result = Outcome.returned (some (Error.remote e)) := by
  have hb : ∀ v : LoopVars, (∀ o ∈ v.seen, o.2 = none) → v.err = none →
      ∀ o ∈ (body v).seen, o.2 = none := by
    intro v hv he o ho
    rw [body_seen] at ho
    simp only [List.mem_append, List.mem_singleton] at ho
    rcases ho with ho | ho
    · exact hv o ho
    · rw [ho]; exact he
  revert hv h
  refine waitLoop_induct (P := fun _ _ v r =>
    (∀ o ∈ v.seen, o.2 = none) → (s, some e) ∈ r.vars.seen →
      r.result = Outcome.returned (some (Error.remote e))) ?_ ?_ ?_ ?_ poll i v
  · intro _ i v _ hv h
    have := hv _ h
    simp at this
  · intro _ i v e2 _ he hv h
    simp only [List.mem_append, List.mem_singleton, Prod.mk.injEq] at h
    rcases h with h | ⟨_, h⟩
    · have := hv _ h
      simp at this
    · rw [he] at h
      cases h
      rfl
  · intro _ i v _ he _ hv h
    have := hb v hv he _ h
    simp at this
  · intro poll i v o r _ he _ ih hv h
    exact ih (hb v hv he) h

/-- One execution of the body per tick: when no pair acted on carries an
error, the executions of the body and the ticks left add up to the ticks
given. -/
theorem waitLoop_ticks (poll : Nat → Outcome Obs) (i : Nat) (v : LoopVars)
    (h : ∀ o ∈ (waitLoop poll i v).vars.seen, o.2 = none) :
    (waitLoop poll i v).vars.seen.length + (waitLoop poll i v).i = v.seen.length + i := by
  revert h
  refine waitLoop_induct (P := fun _ i v r =>
    (∀ o ∈ r.vars.seen, o.2 = none) →
      r.vars.seen.length + r.i = v.seen.length + i) ?_ ?_ ?_ ?_ poll i v
  · intro _ i v _ _; rfl
  · intro _ i v e _ he h
    have := h (v.s, v.err) (by simp)
    rw [he] at this
    simp at this
  · intro _ i v _ _ _ _
    simp only [body_seen, List.length_append, List.length_singleton]
    omega
  · intro poll i v o r _ _ _ ih h
    have := ih h
    have hs : (tick o v).seen = v.seen ++ [(v.s, v.err)] := body_seen v
    rw [hs] at this
    simp only [List.length_append, List.length_singleton] at this
    omega

/-- One call of `GetState` per execution of the body: when no pair acted on
carries an error, as many calls were made as the body ran, the last of them
after its last execution. -/
theorem waitLoop_polls (poll : Nat → Outcome Obs) (i : Nat) (v : LoopVars)
    (h : ∀ o ∈ (waitLoop poll i v).vars.seen, o.2 = none) :
    (waitLoop poll i v).vars.calls.count Call.getState + v.seen.length
      = v.calls.count Call.getState + (waitLoop poll i v).vars.seen.length := by
  revert h
  refine waitLoop_induct (P := fun _ _ v r =>
    (∀ o ∈ r.vars.seen, o.2 = none) →
      r.vars.calls.count Call.getState + v.seen.length
        = v.calls.count Call.getState + r.vars.seen.length) ?_ ?_ ?_ ?_ poll i v
  · intro _ i v _ _; rfl
  · intro _ i v e _ he h
    have := h (v.s, v.err) (by simp)
    rw [he] at this
    simp at this
  · intro _ i v _ _ _ _
    simp only [body_seen, body_polls, List.length_append, List.length_singleton]
    omega
  · intro poll i v o r _ _ _ ih h
    have := ih h
    have hs : (tick o v).seen = v.seen ++ [(v.s, v.err)] := body_seen v
    have hc : (tick o v).calls.count Call.getState = v.calls.count Call.getState + 1 :=
      body_polls v
    rw [hs, hc] at this
    simp only [List.length_append, List.length_singleton] at this
    omega

/-- A nil return comes from a loop that used up its ticks or its confirm
budget. -/
theorem waitLoop_nil_exit (poll : Nat → Outcome Obs) (i : Nat) (v : LoopVars)
    (h : (waitLoop poll i v).result = Outcome.returned none) :
    (waitLoop poll i v).i = 0 ∨ (waitLoop poll i v).vars.readycount = 0 := by
  revert h
  refine waitLoop_induct (P := fun _ _ _ r =>
    r.result = Outcome.returned none → r.i = 0 ∨ r.vars.readycount = 0)
    ?_ ?_ ?_ ?_ poll i v
  · intro _ i v hc h
    by_cases h0 : v.errorcount = 0
    · simp [afterLoop, h0] at h
    · rcases hc with hi | hc
      · exact Or.inl hi
      · right
        show v.readycount = 0
        omega
  · intro _ i v e _ _ h
    simp at h
  · intro _ i v _ _ _ h
    simp at h
  · intro _ _ _ _ _ _ _ _ ih; exact ih

theorem tick_errorcount (o : Obs) (v : LoopVars) :
    (tick o v).errorcount = if v.s = State.Error then v.errorcount - 1 else v.errorcount :=
  body_errorcount v

theorem tick_readycount (o : Obs) (v : LoopVars) :
    (tick o v).readycount
      = if v.s = State.Running then v.readycount - 1 else v.readycount :=
  body_readycount v

/-- From an `Error` state pending with `n + 1` of the error budget left, `n`
further `Error` states and a `GetState` that returns end the loop with the
failure when the ticks suffice. -/
theorem waitLoop_errors (n : Nat) :
    ∀ (poll : Nat → Outcome Obs) (i : Nat) (v : LoopVars),
      v.s = State.Error → v.err = none → v.errorcount = n + 1 → 0 < v.readycount →
      (∀ k < n, poll k = Outcome.returned (State.Error, none)) →
      poll n ≠ Outcome.panicked →
      (waitLoop poll (i + n + 1) v).result
        = Outcome.returned (some Error.nodeStateError) := by
  induction n with
  | zero =>
    intro poll i v hs he hec hrc _ hp
    obtain ⟨o, ho⟩ : ∃ o, poll 0 = Outcome.returned o := by
      cases hq : poll 0 with
      | panicked => exact absurd hq hp
      | returned o => exact ⟨o, rfl⟩
    have h0 : (tick o v).errorcount = 0 := by
      rw [tick_errorcount, if_pos hs]; omega
    rw [waitLoop_step poll _ v o ⟨by omega, hrc⟩ he ho,
      waitLoop_exit _ _ _ (by omega)]
    simp [afterLoop, h0]
  | succ n ih =>
    intro poll i v hs he hec hrc hpoll hp
    have harith : i + (n + 1) + 1 = (i + n + 1) + 1 := by omega
    rw [harith, waitLoop_step poll _ v _ ⟨by omega, hrc⟩ he (hpoll 0 (by omega))]
    apply ih
    · rfl
    · rfl
    · rw [tick_errorcount, if_pos hs]; omega
    · rw [tick_readycount, if_neg (by rw [hs]; decide)]; exact hrc
    · intro k hk
      exact hpoll (k + 1) (by omega)
    · exact hp

/-- Three `Error` states in a row, reached over results that leave the budgets
alone and followed by a `GetState` that returns, end the loop with the failure
when the ticks suffice for the body to act on the third. -/
theorem waitLoop_errors_after_idle (m : Nat) :
    ∀ (poll : Nat → Outcome Obs) (i : Nat) (v : LoopVars),
      v.errorcount = 3 → 0 < v.readycount → v.err = none →
      v.s ≠ State.Error → v.s ≠ State.Running →
      (∀ k < m, idle (poll k)) →
      poll m = Outcome.returned (State.Error, none) →
      poll (m + 1) = Outcome.returned (State.Error, none) →
      poll (m + 2) = Outcome.returned (State.Error, none) →
      poll (m + 3) ≠ Outcome.panicked →
      (waitLoop poll (i + m + 4) v).result
        = Outcome.returned (some Error.nodeStateError) := by
  induction m with
  | zero =>
    intro poll i v hec hrc he hs1 hs2 _ h0 h1 h2 h3
    have harith : i + 0 + 4 = (i + 2 + 1) + 1 := by omega
    rw [harith, waitLoop_step poll _ v _ ⟨by omega, hrc⟩ he h0]
    apply waitLoop_errors 2
    · rfl
    · rfl
    · rw [tick_errorcount, if_neg hs1]; omega
    · rw [tick_readycount, if_neg hs2]; exact hrc
    · intro k hk
      have hk' : k = 0 ∨ k = 1 := by omega
      rcases hk' with hk' | hk'
      · subst hk'; exact h1
      · subst hk'; exact h2
    · exact h3
  | succ m ih =>
    intro poll i v hec hrc he hs1 hs2 hidle h0 h1 h2 h3
    obtain ⟨s0, hs0, hne, hnr⟩ := hidle 0 (by omega)
    have harith : i + (m + 1) + 4 = (i + m + 4) + 1 := by omega
    rw [harith, waitLoop_step poll _ v _ ⟨by omega, hrc⟩ he hs0]
    apply ih
    · rw [tick_errorcount, if_neg hs1]; exact hec
    · rw [tick_readycount, if_neg hs2]; exact hrc
    · rfl
    · exact hne
    · exact hnr
    · intro k hk
      exact hidle (k + 1) (by omega)
    · exact h0
    · exact h1
    · exact h2
    · exact h3

/-! ## Lemmas on Create -/

theorem scan_cached (candidates : List Node) (n : Node) :
    scan candidates (some n) = some n := by
  cases candidates <;> rfl

theorem scan_eq_find (candidates : List Node) :
    scan candidates none = candidates.find? eligible := by
  induction candidates with
  | nil => rfl
  | cons c rest ih =>
    by_cases hc : eligible c = true
    · simp [scan, hc, scan_cached, List.find?]
    · simp only [Bool.not_eq_true] at hc
      simp [scan, hc, ih, List.find?]

theorem createKeyPair_fail (k : KeyFiles) (h : (createKeyPair k).2 ≠ none) :
    (createKeyPair k).1 = "" := by
  unfold createKeyPair at h ⊢
  cases hg : k.generateErr with
  | some e => simp
  | none =>
    cases hr : k.readErr with
    | some e => simp
    | none => simp [hg, hr] at h

theorem encodeChar_length (c : Char) : (encodeChar c).length = c.utf8Size := by
  unfold encodeChar Char.utf8Size
  have h : c.toNat = c.val.toBitVec.toNat := rfl
  simp only [h, UInt32.le_def, BitVec.le_def]
  have e1 : (UInt32.ofNatCore 127 (by decide)).toBitVec.toNat = 127 := rfl
  have e2 : (UInt32.ofNatCore 2047 (by decide)).toBitVec.toNat = 2047 := rfl
  have e3 : (UInt32.ofNatCore 65535 (by decide)).toBitVec.toNat = 65535 := rfl
  simp only [e1, e2, e3]
  generalize c.val.toBitVec.toNat = n
  by_cases h1 : n < 128
  · have : n ≤ 127 := by omega
    simp [h1, this]
  · have h1' : ¬ n ≤ 127 := by omega
    by_cases h2 : n < 2048
    · have : n ≤ 2047 := by omega
      simp [h1, h1', h2, this]
    · have h2' : ¬ n ≤ 2047 := by omega
      by_cases h3 : n < 65536
      · have : n ≤ 65535 := by omega
        simp [h1, h1', h2, h2', h3, this]
      · have h3' : ¬ n ≤ 65535 := by omega
        simp [h1, h1', h2, h2', h3, h3']

theorem bytesOf_length (cs : List Char) :
    (bytesOf cs).length = String.utf8ByteSize.go cs := by
  induction cs with
  | nil => rfl
  | cons c cs ih =>
    simp only [bytesOf, List.length_append, ih, encodeChar_length, String.utf8ByteSize.go]
    omega

/-- The number of bytes counted by `len` is the size of the string in
UTF-8. -/
theorem len_eq_utf8ByteSize (s : String) : len s = s.utf8ByteSize := by
  cases s with
  | mk cs => exact bytesOf_length cs

theorem len_empty : len "" = 0 := by decide

/-- When `Create` reaches its wait loop, it enters it with a nil error and
ends as the loop ends. -/
theorem Create_loop (d : Driver) (g : Globals) (env : CreateEnv) (w : LoopEnd)
    (h : (Create d g env).loop = some w) :
    w = waitReady (fun k => GetState (env.snapshots k)) none
      ∧ (Create d g env).outcome = w.result := by
  have hk : ¬ len (createKeyPair env.keys).1 < 25 → (createKeyPair env.keys).2 = none := by
    intro hlen
    by_contra hne
    rw [createKeyPair_fail env.keys hne, len_empty] at hlen
    omega
  unfold Create at h ⊢
  split at h
  · simp at h
  · split at h
    · simp at h
    · dsimp only at h ⊢
      split at h
      · simp at h
      · rename_i hlen
        split at h
        · split at h
          · simp at h
          · simp only [Option.some.injEq] at h
            rw [hk hlen] at h
            simp only [hlen, if_false]
            subst h
            simp [hk hlen, *]
        · simp at h

/-- A nil return of `Create` comes from its wait loop. -/
theorem Create_nil_loop (d : Driver) (g : Globals) (env : CreateEnv)
    (h : (Create d g env).outcome = Outcome.returned none) :
    ∃ w, (Create d g env).loop = some w := by
  unfold Create at h ⊢
  split at h
  · simp at h
  · split at h
    · simp at h
    · dsimp only at h ⊢
      split at h
      · simp at h
      · rename_i hlen
        split at h
        · rename_i hos
          split at h
          · simp at h
          · rename_i hip
            simp [hlen, hos, hip]
        · simp at h

/-! ## Properties -/

/-- C1, as stated, fails: entered with a node cached by an earlier operation,
`Create` skips the scan and claims the cached node.  Here the cached node is
the administrative one: over a listing holding a free node `Create` sends the
update for the administrative node, and over an empty listing it still claims
it instead of failing with `No machines`. -/
theorem Create_cached_node_counterexample :
    eligible nodeAdmin = false
    ∧ (Create (NewDriver "m1") globalsCached (envOk [nodeFree] (fun _ => 0))).calls.head?
        = some (Call.nodeUpdate (claim (NewDriver "m1") globalsCached.target nodeAdmin) true)
    ∧ (Create (NewDriver "m1") globalsCached (envOk [] (fun _ => 0))).calls.head?
        = some (Call.nodeUpdate (claim (NewDriver "m1") globalsCached.target nodeAdmin) true)
    ∧ (Create (NewDriver "m1") globalsCached (envOk [] (fun _ => 0))).outcome
        = Outcome.returned none := by
  decide

/-- C1, amended: entered with no node cached, `Create` claims the first node in
listed order that is not administrative, not system and available (its first
request is the update of that node as claimed), and it fails with
`No machines`, having sent no request, exactly when no listed node passes that
test. -/
theorem Create_claims_first_eligible (d : Driver) (target source : Deployment)
    (env : CreateEnv) :
    match env.candidates.find? eligible with
    | none =>
      (Create d { node := none, target := target, source := source } env).outcome
          = Outcome.returned (some Error.noMachines)
        ∧ (Create d { node := none, target := target, source := source } env).calls = []
    | some n =>
      (n.Admin = false ∧ n.System = false ∧ n.Available = true)
        ∧ (∃ before after, env.candidates = before ++ n :: after
            ∧ ∀ c ∈ before, eligible c = false)
        ∧ (Create d { node := none, target := target, source := source } env).calls.head?
            = some (Call.nodeUpdate (claim d target n) (env.updateErr == none))
        ∧ (Create d { node := none, target := target, source := source } env).outcome
            ≠ Outcome.returned (some Error.noMachines) := by
  split
  · rename_i hnone
    simp [Create, scan_eq_find, hnone]
  · rename_i n hsome
    obtain ⟨hel, before, after, hsplit, hbefore⟩ := List.find?_eq_some.1 hsome
    refine ⟨?_, ⟨before, after, hsplit, ?_⟩, ?_, ?_⟩
    · simpa [eligible, and_assoc] using hel
    · intro c hc
      simpa using hbefore c hc
    · unfold Create
      simp only [scan_eq_find, hsome]
      cases hu : env.updateErr with
      | some e => simp
      | none =>
        dsimp only
        split
        · simp
        · split
          · split <;> simp
          · simp
    · unfold Create
      simp only [scan_eq_find, hsome]
      cases hu : env.updateErr with
      | some e => simp
      | none =>
        dsimp only
        split
        · simp
        · split
          · split
            · simp
            · intro hc
              rcases waitLoop_result_cases (fun k => GetState (env.snapshots k)) 90
                (loopInit (createKeyPair env.keys).2) with hr | hr | ⟨oe, hr⟩
              · rw [waitReady, hr] at hc
                cases hc
              · rw [waitReady, hr] at hc
                cases hc
              · rw [waitReady, hr] at hc
                cases oe <;> cases hc
          · simp

/-- C2, on the code: with the node alive and the lookup of the ready-state
NodeRole handing back a nil pointer, `GetState` reads `nr.NodeError` through
that pointer before it tests the error and panics, whatever the error is,
instead of returning `Error`.  On every snapshot whose lookup hands back a
NodeRole it returns the state of the stated rule, never `None`, and on a
failed fetch of the node it returns `Error` together with the fetch error. -/
theorem GetState_nil_role_panics (snap : Snapshot) (nr : NodeRole) (e : ExtErr)
    (err1 : Option ExtErr) :
    GetState snapNilRole = Outcome.panicked
    ∧ GetState { getErr := none, Alive := true, nr := none, err1 := err1 }
        = Outcome.panicked
    ∧ GetState { snap with nr := some nr }
        = Outcome.returned
            (classifySpec snap.getErr.isSome snap.Alive nr.NodeError snap.err1.isSome
              nr.State,
             if snap.getErr.isSome then snap.getErr
             else if snap.Alive then snap.err1 else none)
    ∧ classifySpec snap.getErr.isSome snap.Alive nr.NodeError snap.err1.isSome nr.State
        ≠ State.None
    ∧ GetState { snap with getErr := some e } = Outcome.returned (State.Error, some e) := by
  refine ⟨rfl, rfl, ?_, ?_, rfl⟩
  · unfold GetState classifySpec
    cases hg : snap.getErr with
    | some e => simp
    | none =>
      by_cases ha : snap.Alive = true
      · cases hn : nr.NodeError <;> cases he : snap.err1 <;> simp [ha, hn]
        split
        · rename_i hst; simp [hst]
        · rename_i hst; simp [hst]
        · rename_i h1 h2
          have h1' : ¬ nr.State = -1 := h1
          have h2' : ¬ nr.State = 0 := h2
          simp [h1', h2']
      · simp [ha]
  · unfold classifySpec
    by_cases h1 : nr.State = -1
    · cases snap.getErr.isSome <;> cases snap.Alive <;> cases nr.NodeError
        <;> cases snap.err1.isSome <;> simp [h1]
    · by_cases h2 : nr.State = 0
      · cases snap.getErr.isSome <;> cases snap.Alive <;> cases nr.NodeError
          <;> cases snap.err1.isSome <;> simp [h2]
      · cases snap.getErr.isSome <;> cases snap.Alive <;> cases nr.NodeError
          <;> cases snap.err1.isSome <;> simp [h1, h2]

set_option maxRecDepth 10000 in
/-- C3, as stated, fails: with the node in progress at the first 87 calls of
`GetState` and in error at the next three, the loop observes `Error, Error,
Error`, yet only the first two lower the error budget: the third is the result
of the 90th call, made by the post statement after the last execution of the
body, and is never acted on.  The budget ends at 1 and `Create` returns nil. -/
theorem Create_late_errors_counterexample :
    GetState (snapOf (runStatesLateErrors 87)) = Outcome.returned (State.Error, none)
    ∧ GetState (snapOf (runStatesLateErrors 88)) = Outcome.returned (State.Error, none)
    ∧ GetState (snapOf (runStatesLateErrors 89)) = Outcome.returned (State.Error, none)
    ∧ (Create (NewDriver "m1") globalsFresh
        (envOk [nodeFree] runStatesLateErrors)).outcome = Outcome.returned none
    ∧ (Create (NewDriver "m1") globalsFresh (envOk [nodeFree] runStatesLateErrors)).loop.map
        (fun w => (w.i, w.vars.errorcount, w.vars.seen.count (State.Error, none),
                   w.vars.calls.count Call.getState, w.vars.s))
        = some (0, 1, 2, 90, State.Error) := by
  decide

/-- C3, amended: the wait loop of `Create` is `waitLoop` run for 90 ticks from
an error budget of 3.  Run for any number of ticks, the budget left plus the
number of `Error` states the body acted on is 3.  The body acts on the initial
`None` and then on the results of `GetState` in order; while none of them
carries an error it runs once per tick and `GetState` is called once per run,
so the result of the last call is never acted on.  The loop ends with
`node state reported error` exactly when the budget is zero and the last
`GetState` did not panic, and then the last state acted on is the third
`Error`; a result that carries an error ends the loop with that error.
`Error, Error, Error` ends with the failure when at most 86 results come
before, none of them `Error`, `Running` or with an error, and the call that
follows returns. -/
theorem waitLoop_error_budget (poll : Nat → Outcome Obs) (err0 : Option ExtErr) (i : Nat) :
    waitReady poll err0 = waitLoop poll 90 (loopInit err0)
    ∧ (∀ (d : Driver) (g : Globals) (env : CreateEnv) (w : LoopEnd),
        (Create d g env).loop = some w →
          w = waitReady (fun k => GetState (env.snapshots k)) none
            ∧ (Create d g env).outcome = w.result)
    ∧ (waitLoop poll i (loopInit err0)).vars.errorcount
        + (waitLoop poll i (loopInit err0)).vars.seen.count (State.Error, none) = 3
    ∧ (waitLoop poll i (loopInit err0)).vars.seen.map Outcome.returned
        = (List.range (waitLoop poll i (loopInit err0)).vars.seen.length).map
            (pending poll (Outcome.returned (State.None, err0)))
    ∧ ((∀ o ∈ (waitLoop poll i (loopInit err0)).vars.seen, o.2 = none) →
        (waitLoop poll i (loopInit err0)).vars.seen.length
            + (waitLoop poll i (loopInit err0)).i = i
          ∧ (waitLoop poll i (loopInit err0)).vars.calls.count Call.getState
              = (waitLoop poll i (loopInit err0)).vars.seen.length)
    ∧ ((waitLoop poll i (loopInit err0)).result
          = Outcome.returned (some Error.nodeStateError)
        ↔ (waitLoop poll i (loopInit err0)).vars.errorcount = 0
          ∧ (waitLoop poll i (loopInit err0)).result ≠ Outcome.panicked)
    ∧ ((waitLoop poll i (loopInit err0)).vars.errorcount = 0 →
        (waitLoop poll i (loopInit err0)).vars.seen.getLast? = some (State.Error, none))
    ∧ (∀ s e, (s, some e) ∈ (waitLoop poll i (loopInit err0)).vars.seen →
        (waitLoop poll i (loopInit err0)).result
          = Outcome.returned (some (Error.remote e)))
    ∧ (∀ m, m ≤ 86 → (∀ k < m, idle (poll k)) →
        poll m = Outcome.returned (State.Error, none) →
        poll (m + 1) = Outcome.returned (State.Error, none) →
        poll (m + 2) = Outcome.returned (State.Error, none) →
        poll (m + 3) ≠ Outcome.panicked →
        (waitReady poll none).result = Outcome.returned (some Error.nodeStateError)) := by
  refine ⟨rfl, Create_loop, ?_, ?_, ?_, waitLoop_result_iff _ _ _, ?_, ?_, ?_⟩
  · have h := waitLoop_errorcount poll i (loopInit err0)
    simpa [loopInit] using h
  · obtain ⟨n, hn⟩ := waitLoop_seen poll i (loopInit err0)
    have hlen : (waitLoop poll i (loopInit err0)).vars.seen.length = n := by
      have := congrArg List.length hn
      simpa [loopInit] using this
    rw [hlen, hn]
    simp [loopInit]
  · intro h
    have h1 := waitLoop_ticks poll i (loopInit err0) h
    have h2 := waitLoop_polls poll i (loopInit err0) h
    simp only [loopInit, List.length_nil, List.count_nil, Nat.zero_add, Nat.add_zero]
      at h1 h2
    exact ⟨h1, h2⟩
  · intro h
    rcases waitLoop_last_error poll i (loopInit err0) h with ⟨h0, _⟩ | hl
    · simp [loopInit] at h0
    · exact hl
  · intro s e h
    exact waitLoop_fetch_error poll i (loopInit err0) (by simp [loopInit]) s e h
  · intro m hm hidle h0 h1 h2 h3
    have h := waitLoop_errors_after_idle m poll (86 - m) (loopInit none) rfl
      (by simp [loopInit]) rfl (by simp [loopInit]) (by simp [loopInit]) hidle h0 h1 h2 h3
    have harith : 86 - m + m + 4 = 90 := by omega
    rw [harith] at h
    exact h

set_option maxRecDepth 10000 in
/-- C4, as stated, fails: over the observations `Running, Starting, Running`
the confirm budget is used up by two `Running` states that are not adjacent,
and `Create` returns success; and with `Running` observed once and the node
in progress from then on, `Create` returns success when the 90 ticks are used
up, on a single `Running` observation. -/
theorem Create_ready_not_adjacent_counterexample :
    (Create (NewDriver "m1") globalsFresh (envOk [nodeFree] runStatesFlap)).outcome
        = Outcome.returned none
    ∧ (Create (NewDriver "m1") globalsFresh (envOk [nodeFree] runStatesFlap)).loop.map
        (fun w => (w.vars.readycount, w.vars.seen))
        = some (0, [(State.None, none), (State.Running, none), (State.Starting, none),
                    (State.Running, none)])
    ∧ (Create (NewDriver "m1") globalsFresh (envOk [nodeFree] runStatesOneRunning)).outcome
        = Outcome.returned none
    ∧ (Create (NewDriver "m1") globalsFresh (envOk [nodeFree] runStatesOneRunning)).loop.map
        (fun w => (w.i, w.vars.readycount, w.vars.seen.count (State.Running, none)))
        = some (0, 1, 1) := by
  decide

/-- C4, amended: whenever `Create` returns success it has run its wait loop,
which acted on the initial `None` and then on the results of `GetState` in
order, once per tick; the confirm budget left plus the number of `Running`
states acted on is 2; and when ticks of the 90 are left, the confirm budget is
zero, exactly two `Running` states were acted on and the second is the last
state acted on.  Other states may lie between the two. -/
theorem Create_success_confirmed (d : Driver) (g : Globals) (env : CreateEnv)
    (h : (Create d g env).outcome = Outcome.returned none) :
    ∃ w, (Create d g env).loop = some w
      ∧ w = waitReady (fun k => GetState (env.snapshots k)) none
      ∧ w.vars.seen.map Outcome.returned
          = (List.range w.vars.seen.length).map
              (pending (fun k => GetState (env.snapshots k))
                (Outcome.returned (State.None, none)))
      ∧ w.vars.seen.length + w.i = 90
      ∧ w.vars.calls.count Call.getState = w.vars.seen.length
      ∧ w.vars.readycount + w.vars.seen.count (State.Running, none) = 2
      ∧ (w.i = 0 ∨ w.vars.readycount = 0)
      ∧ (0 < w.i →
          w.vars.readycount = 0 ∧ w.vars.seen.count (State.Running, none) = 2
            ∧ w.vars.seen.getLast? = some (State.Running, none)) := by
  obtain ⟨w, hw⟩ := Create_nil_loop d g env h
  obtain ⟨hwr, ho⟩ := Create_loop d g env w hw
  have hres : w.result = Outcome.returned none := by rw [← ho, h]
  refine ⟨w, hw, hwr, ?_⟩
  subst hwr
  have hnil : ∀ o ∈ (waitReady (fun k => GetState (env.snapshots k)) none).vars.seen,
      o.2 = none := by
    intro o ho
    cases hoe : o.2 with
    | none => rfl
    | some e =>
      have hmem : (o.1, some e) ∈
          (waitReady (fun k => GetState (env.snapshots k)) none).vars.seen := by
        rw [← hoe]; exact ho
      have := waitLoop_fetch_error _ 90 (loopInit none) (by simp [loopInit]) o.1 e hmem
      rw [waitReady] at hres
      rw [hres] at this
      simp at this
  have hexit : (waitReady (fun k => GetState (env.snapshots k)) none).i = 0
      ∨ (waitReady (fun k => GetState (env.snapshots k)) none).vars.readycount = 0 :=
    waitLoop_nil_exit _ 90 (loopInit none) hres
  have hcount : (waitReady (fun k => GetState (env.snapshots k)) none).vars.readycount
      + (waitReady (fun k => GetState (env.snapshots k)) none).vars.seen.count
          (State.Running, none) = 2 :=
    waitLoop_readycount (fun k => GetState (env.snapshots k)) 90 (loopInit none)
  have hticks : (waitReady (fun k => GetState (env.snapshots k)) none).vars.seen.length
      + (waitReady (fun k => GetState (env.snapshots k)) none).i = 90 := by
    have := waitLoop_ticks _ 90 (loopInit none) hnil
    simpa [loopInit, waitReady] using this
  have hpolls : (waitReady (fun k => GetState (env.snapshots k)) none).vars.calls.count
        Call.getState
      = (waitReady (fun k => GetState (env.snapshots k)) none).vars.seen.length := by
    have := waitLoop_polls _ 90 (loopInit none) hnil
    simpa [loopInit, waitReady] using this
  refine ⟨?_, hticks, hpolls, hcount, hexit, ?_⟩
  · obtain ⟨n, hn⟩ := waitLoop_seen (fun k => GetState (env.snapshots k)) 90 (loopInit none)
    have hlen : (waitReady (fun k => GetState (env.snapshots k)) none).vars.seen.length
        = n := by
      have := congrArg List.length hn
      simpa [loopInit, waitReady] using this
    rw [hlen]
    simpa [loopInit, waitReady] using hn
  · intro hi
    have hrc : (waitReady (fun k => GetState (env.snapshots k)) none).vars.readycount = 0 := by
      rcases hexit with h0 | h0
      · omega
      · exact h0
    refine ⟨hrc, ?_, ?_⟩
    · omega
    · rcases waitLoop_last_running _ 90 (loopInit none) hrc with ⟨h0, _⟩ | hl
      · simp [loopInit] at h0
      · exact hl

/-- The success property at the run over `Running, Starting, Running`. -/
theorem Create_success_confirmed_witness :
    (Create (NewDriver "m1") globalsFresh (envOk [nodeFree] runStatesFlap)).outcome
        = Outcome.returned none
    ∧ ∃ w, (Create (NewDriver "m1") globalsFresh (envOk [nodeFree] runStatesFlap)).loop
          = some w
      ∧ w = waitReady (fun k => GetState ((envOk [nodeFree] runStatesFlap).snapshots k)) none
      ∧ w.vars.seen.map Outcome.returned
          = (List.range w.vars.seen.length).map
              (pending (fun k => GetState ((envOk [nodeFree] runStatesFlap).snapshots k))
                (Outcome.returned (State.None, none)))
      ∧ w.vars.seen.length + w.i = 90
      ∧ w.vars.calls.count Call.getState = w.vars.seen.length
      ∧ w.vars.readycount + w.vars.seen.count (State.Running, none) = 2
      ∧ (w.i = 0 ∨ w.vars.readycount = 0)
      ∧ (0 < w.i →
          w.vars.readycount = 0 ∧ w.vars.seen.count (State.Running, none) = 2
            ∧ w.vars.seen.getLast? = some (State.Running, none)) :=
  ⟨by decide,
   Create_success_confirmed (NewDriver "m1") globalsFresh (envOk [nodeFree] runStatesFlap)
     (by decide)⟩

set_option maxRecDepth 10000 in
/-- C5, as stated, fails: with the node in progress at all 90 ticks `Create`
returns nil, the value it also returns when two `Running` states confirmed the
node ready. -/
theorem Create_timeout_counterexample :
    (Create (NewDriver "m1") globalsFresh (envOk [nodeFree] (fun _ => 1))).outcome
        = Outcome.returned none
    ∧ (Create (NewDriver "m1") globalsFresh (envOk [nodeFree] (fun _ => 1))).loop.map
        (fun w => (w.i, w.vars.errorcount, w.vars.readycount)) = some (0, 3, 2)
    ∧ (Create (NewDriver "m1") globalsFresh (envOk [nodeFree] (fun _ => 0))).outcome
        = Outcome.returned none
    ∧ (Create (NewDriver "m1") globalsFresh (envOk [nodeFree] (fun _ => 0))).loop.map
        (fun w => (w.i, w.vars.errorcount, w.vars.readycount)) = some (87, 3, 0) := by
  decide

/-- C5, amended: a run of `Create` whose wait loop uses up the 90 ticks with
both budgets above zero and without a failing `GetState` returns nil, and a run
whose loop ends on the confirm budget without a failing `GetState` returns the
same value. -/
theorem Create_timeout_returns_nil (d : Driver) (g : Globals) (env : CreateEnv)
    (w : LoopEnd) (d2 : Driver) (g2 : Globals) (env2 : CreateEnv) (w2 : LoopEnd)
    (h : (Create d g env).loop = some w) (hi : w.i = 0)
    (hec : 0 < w.vars.errorcount) (hrc : 0 < w.vars.readycount)
    (hp : ∀ k, ∃ s, GetState (env.snapshots k) = Outcome.returned (s, none))
    (h2 : (Create d2 g2 env2).loop = some w2) (hrc2 : w2.vars.readycount = 0)
    (hp2 : ∀ k, ∃ s, GetState (env2.snapshots k) = Outcome.returned (s, none)) :
    w.result = Outcome.returned none
      ∧ (Create d g env).outcome = Outcome.returned none
      ∧ (Create d2 g2 env2).outcome = (Create d g env).outcome := by
  obtain ⟨hw, ho⟩ := Create_loop d g env w h
  obtain ⟨hw2, ho2⟩ := Create_loop d2 g2 env2 w2 h2
  have hr : w.result = Outcome.returned none := by
    subst hw
    obtain ⟨he, hnp⟩ := waitLoop_returns _ 90 (loopInit none) rfl hp
    rw [waitReady, waitLoop_result_of_pos _ _ _ hec hnp, he]
    rfl
  have hr2 : w2.result = Outcome.returned none := by
    subst hw2
    obtain ⟨he, hnp⟩ := waitLoop_returns _ 90 (loopInit none) rfl hp2
    have hpos : 0 < (waitLoop (fun k => GetState (env2.snapshots k)) 90
        (loopInit none)).vars.errorcount := by
      rcases waitLoop_not_both (fun k => GetState (env2.snapshots k)) 90 (loopInit none)
        (by simp [loopInit]) with hq | hq
      · exact hq
      · rw [waitReady] at hrc2; omega
    rw [waitReady, waitLoop_result_of_pos _ _ _ hpos hnp, he]
    rfl
  refine ⟨hr, ?_, ?_⟩
  · rw [ho, hr]
  · rw [ho, ho2, hr, hr2]

/-- The timeout property at a run in progress at all 90 ticks and a run ready
at once. -/
theorem Create_timeout_returns_nil_witness :
    ((Create (NewDriver "m1") globalsFresh (envOk [nodeFree] (fun _ => 1))).loop
        = some (waitReady (fun _ => GetState (snapOf 1)) none)
      ∧ (waitReady (fun _ => GetState (snapOf 1)) none).i = 0
      ∧ (Create (NewDriver "m2") globalsFresh (envOk [nodeFree] (fun _ => 0))).loop
        = some (waitReady (fun _ => GetState (snapOf 0)) none)
      ∧ (waitReady (fun _ => GetState (snapOf 0)) none).vars.readycount = 0)
    ∧ ((waitReady (fun _ => GetState (snapOf 1)) none).result = Outcome.returned none
      ∧ (Create (NewDriver "m1") globalsFresh (envOk [nodeFree] (fun _ => 1))).outcome
          = Outcome.returned none
      ∧ (Create (NewDriver "m2") globalsFresh (envOk [nodeFree] (fun _ => 0))).outcome
          = (Create (NewDriver "m1") globalsFresh (envOk [nodeFree] (fun _ => 1))).outcome) :=
  ⟨⟨rfl, by decide, rfl, by decide⟩,
   Create_timeout_returns_nil (NewDriver "m1") globalsFresh (envOk [nodeFree] (fun _ => 1))
     (waitReady (fun _ => GetState (snapOf 1)) none)
     (NewDriver "m2") globalsFresh (envOk [nodeFree] (fun _ => 0))
     (waitReady (fun _ => GetState (snapOf 0)) none)
     rfl (by decide) (by decide) (by decide) (fun _ => ⟨State.Starting, rfl⟩)
     rfl (by decide) (fun _ => ⟨State.Running, rfl⟩)⟩

/-- C6, as stated, fails: with the OS unregistered `Create` returns the
unsupported-OS error and sends no commit, but the update that moves the node to
the target pool has been accepted before, so the remote record of the node is
in the target pool (2), not in the source pool (1); and over an empty listing
the error returned is `No machines`. -/
theorem Create_unsupported_os_counterexample :
    (Create (NewDriver "m1") globalsFresh (envNoOS [nodeFree])).outcome
        = Outcome.returned (some Error.unsupportedOS)
    ∧ Call.nodeCommit ∉ (Create (NewDriver "m1") globalsFresh (envNoOS [nodeFree])).calls
    ∧ nodeFree.DeploymentID = globalsFresh.source.ID
    ∧ (persisted (Create (NewDriver "m1") globalsFresh (envNoOS [nodeFree])).calls).map
        (fun n => (n.ID, n.DeploymentID)) = some (nodeFree.ID, globalsFresh.target.ID)
    ∧ globalsFresh.target.ID ≠ globalsFresh.source.ID
    ∧ (Create (NewDriver "m1") globalsFresh (envNoOS [])).outcome
        = Outcome.returned (some Error.noMachines) := by
  decide

theorem Create_without_os (d : Driver) (g : Globals) (env : CreateEnv)
    (hos : env.osAvailable d.TargetOS = false) :
    Call.nodeCommit ∉ (Create d g env).calls
    ∧ ((Create d g env).outcome = Outcome.returned (some Error.unsupportedOS)
        ↔ (∃ picked, scan env.candidates g.node = some picked) ∧ env.updateErr = none
          ∧ 25 ≤ len (createKeyPair env.keys).1)
    ∧ ((Create d g env).outcome = Outcome.returned (some Error.unsupportedOS) →
        ∃ picked, scan env.candidates g.node = some picked
          ∧ persisted (Create d g env).calls = some (claim d g.target picked)) := by
  unfold Create
  cases hs : scan env.candidates g.node with
  | none => simp
  | some picked =>
    cases hu : env.updateErr with
    | some e => simp
    | none =>
      by_cases hlen : len (createKeyPair env.keys).1 < 25
      · simp [hlen, hos]
      · simp [hlen, hos, persisted]
        omega

/-- C6, amended: in every run of `Create` with the requested OS unregistered,
no commit is sent; `Create` returns the unsupported-OS error exactly when it
has claimed a node, the node update was accepted and the credential has at
least 25 bytes; and whenever it returns that error the remote record of the
node is the claimed one, already reassigned to the target pool. -/
theorem Create_unsupported_os (d : Driver) (g : Globals) (env : CreateEnv)
    (hos : env.osAvailable d.TargetOS = false) :
    Call.nodeCommit ∉ (Create d g env).calls
    ∧ ((Create d g env).outcome = Outcome.returned (some Error.unsupportedOS)
        ↔ (∃ picked, scan env.candidates g.node = some picked) ∧ env.updateErr = none
          ∧ 25 ≤ len (createKeyPair env.keys).1)
    ∧ ((Create d g env).outcome = Outcome.returned (some Error.unsupportedOS) →
        ∃ n, persisted (Create d g env).calls = some n
          ∧ n.DeploymentID = g.target.ID) := by
  obtain ⟨h1, h2, h3⟩ := Create_without_os d g env hos
  refine ⟨h1, h2, ?_⟩
  intro h
  obtain ⟨picked, _, hp⟩ := h3 h
  exact ⟨_, hp, rfl⟩

/-- The unsupported-OS property at a run over one free node. -/
theorem Create_unsupported_os_witness :
    (envNoOS [nodeFree]).osAvailable (NewDriver "m1").TargetOS = false
    ∧ (Call.nodeCommit ∉ (Create (NewDriver "m1") globalsFresh (envNoOS [nodeFree])).calls
      ∧ ((Create (NewDriver "m1") globalsFresh (envNoOS [nodeFree])).outcome
            = Outcome.returned (some Error.unsupportedOS)
          ↔ (∃ picked, scan (envNoOS [nodeFree]).candidates globalsFresh.node = some picked)
            ∧ (envNoOS [nodeFree]).updateErr = none
            ∧ 25 ≤ len (createKeyPair (envNoOS [nodeFree]).keys).1)
      ∧ ((Create (NewDriver "m1") globalsFresh (envNoOS [nodeFree])).outcome
            = Outcome.returned (some Error.unsupportedOS) →
          ∃ n, persisted (Create (NewDriver "m1") globalsFresh (envNoOS [nodeFree])).calls
              = some n
            ∧ n.DeploymentID = globalsFresh.target.ID)) :=
  ⟨rfl, Create_unsupported_os (NewDriver "m1") globalsFresh (envNoOS [nodeFree]) rfl⟩

/-- C8, as stated, fails: with all four role lookups and bindings failing
`Create` returns success, and with key generation failing the slice
`sshkey[:25]` of the empty key goes out of range. -/
theorem Create_failures_not_surfaced_counterexample :
    (Create (NewDriver "m1") globalsFresh envRolesFail).outcome = Outcome.returned none
    ∧ (createKeyPair keysFail).1 = ""
    ∧ (Create (NewDriver "m1") globalsFresh envKeyFail).outcome = Outcome.panicked := by
  decide

/-- C8, amended: what looking up and binding the OS-install role and the
ready-state role answer has no effect on how `Create` ends: with any other
answers of these four requests the outcome is the same. -/
theorem Create_ignores_role_results (d : Driver) (g : Globals) (env : CreateEnv)
    (osrole role : Role × Option ExtErr) (osinstallAddErr readyAddErr : Option ExtErr) :
    (Create d g { env with osrole := osrole, osinstallAddErr := osinstallAddErr,
                           role := role, readyAddErr := readyAddErr }).outcome
      = (Create d g env).outcome := by
  unfold Create
  dsimp only
  split
  · rfl
  · split
    · rfl
    · split
      · rfl
      · split
        · split <;> rfl
        · rfl

theorem removeRoleCalls_lookup (found : String → Bool) (roles : List String)
    (name : String) :
    Call.nodeRole name ∈ removeRoleCalls found roles ↔ name ∈ roles := by
  induction roles with
  | nil => simp [removeRoleCalls]
  | cons r rest ih =>
    by_cases hf : found r = true
    · simp [removeRoleCalls, hf, ih, eq_comm]
    · simp [removeRoleCalls, hf, ih, eq_comm]

theorem removeRoleCalls_delete (found : String → Bool) (roles : List String)
    (name : String) :
    Call.nodeRoleDelete name ∈ removeRoleCalls found roles
      ↔ name ∈ roles ∧ found name = true := by
  induction roles with
  | nil => simp [removeRoleCalls]
  | cons r rest ih =>
    have hmem : Call.nodeRoleDelete name ∈ removeRoleCalls found (r :: rest)
        ↔ (name = r ∧ found r = true) ∨ Call.nodeRoleDelete name ∈ removeRoleCalls found rest := by
      by_cases hf : found r = true
      · simp [removeRoleCalls, hf]
      · simp [removeRoleCalls, hf]
    rw [hmem, ih, List.mem_cons]
    constructor
    · rintro (⟨h1, h2⟩ | ⟨h1, h2⟩)
      · exact ⟨Or.inl h1, h1 ▸ h2⟩
      · exact ⟨Or.inr h1, h2⟩
    · rintro ⟨h1 | h1, h2⟩
      · exact Or.inl ⟨h1, h1 ▸ h2⟩
      · exact Or.inr ⟨h1, h2⟩

/-- C7, as stated, fails: `Create` binds the OS-install NodeRole (role
`crowbar-installed-node`, order 1000), and the `Remove` that follows neither
looks that role up nor deletes it, even with every role it looks up found. -/
theorem Remove_keeps_os_install_counterexample :
    Call.roleGet OS_INSTALL
        ∈ (Create (NewDriver "m1") globalsFresh (envOk [nodeFree] (fun _ => 0))).calls
    ∧ Call.nodeRoleAdd { DeploymentID := 2, NodeID := 7, RoleID := 3, Order := 1000 }
        ∈ (Create (NewDriver "m1") globalsFresh (envOk [nodeFree] (fun _ => 0))).calls
    ∧ Call.nodeRole OS_INSTALL
        ∉ (Remove (NewDriver "m1") globalsAfterCreate envRemoveOk).calls
    ∧ Call.nodeRoleDelete OS_INSTALL
        ∉ (Remove (NewDriver "m1") globalsAfterCreate envRemoveOk).calls := by
  decide

/-- C7, amended: the roles `Remove` looks up on the node are `docker-ready` and
`docker-prep` and no other, and it deletes those of the two it finds; the
ready-state NodeRole `Create` bound is among them when `ReadyState` is one of
these two names (`docker-ready` by default), and the OS-install NodeRole of
role `crowbar-installed-node` never is. -/
theorem Remove_role_lookups (d : Driver) (g : Globals) (env : RemoveEnv)
    (name : String) :
    (Call.nodeRole name ∈ (Remove d g env).calls
        ↔ name = "docker-ready" ∨ name = "docker-prep")
    ∧ (Call.nodeRoleDelete name ∈ (Remove d g env).calls
        ↔ (name = "docker-ready" ∨ name = "docker-prep") ∧ env.roleFound name = true)
    ∧ (Call.nodeRole d.ReadyState ∈ (Remove d g env).calls
        ↔ d.ReadyState = "docker-ready" ∨ d.ReadyState = "docker-prep")
    ∧ (NewDriver d.MachineName).ReadyState = "docker-ready"
    ∧ Call.nodeRole OS_INSTALL ∉ (Remove d g env).calls
    ∧ Call.nodeRoleDelete OS_INSTALL ∉ (Remove d g env).calls := by
  have hl : ∀ nm, Call.nodeRole nm ∈ (Remove d g env).calls
      ↔ nm = "docker-ready" ∨ nm = "docker-prep" := by
    intro nm
    unfold Remove
    by_cases hg : g.node = none
    · simp [hg, removeRoleCalls_lookup, removeRoles]
    · simp [hg, removeRoleCalls_lookup, removeRoles]
  have hd : ∀ nm, Call.nodeRoleDelete nm ∈ (Remove d g env).calls
      ↔ (nm = "docker-ready" ∨ nm = "docker-prep") ∧ env.roleFound nm = true := by
    intro nm
    unfold Remove
    by_cases hg : g.node = none
    · simp [hg, removeRoleCalls_delete, removeRoles]
    · simp [hg, removeRoleCalls_delete, removeRoles]
  have hos : ¬ (OS_INSTALL = "docker-ready" ∨ OS_INSTALL = "docker-prep") := by decide
  refine ⟨hl name, hd name, hl d.ReadyState, rfl, ?_, ?_⟩
  · rw [hl]; exact hos
  · rw [hd]; exact fun h => hos h.1

/-- C9: when `Create`, entered with no node cached, selected node `n` from the
listing, and `Remove` then runs on that node (same identifier, and its
administrative and system flags, which neither operation writes, as `Create`
tested them) with its node update accepted, the remote record of the node is
the released one: it is node `n`, belongs to the source pool and passes the
eligibility test of `Create`, and a scan of the listing with the released node
back in the place of `n` selects it. -/
theorem Remove_then_scan_reselects (d : Driver) (g : Globals) (env : RemoveEnv)
    (candidates : List Node) (n : Node)
    (hsel : scan candidates none = some n)
    (hsame : (removeNode g env).ID = n.ID ∧ (removeNode g env).Admin = n.Admin
      ∧ (removeNode g env).System = n.System)
    (hup : env.updateErr = none) :
    persisted (Remove d g env).calls = some (release g.source (removeNode g env))
    ∧ (release g.source (removeNode g env)).ID = n.ID
    ∧ (release g.source (removeNode g env)).DeploymentID = g.source.ID
    ∧ ((release g.source (removeNode g env)).Admin = false
        ∧ (release g.source (removeNode g env)).System = false
        ∧ (release g.source (removeNode g env)).Available = true)
    ∧ ∃ before after, candidates = before ++ n :: after
        ∧ scan (before ++ release g.source (removeNode g env) :: after) none
            = some (release g.source (removeNode g env)) := by
  rw [scan_eq_find] at hsel
  obtain ⟨hel, before, after, hsplit, hbefore⟩ := List.find?_eq_some.1 hsel
  obtain ⟨hid, hadmin, hsystem⟩ := hsame
  have hn : n.Admin = false ∧ n.System = false ∧ n.Available = true := by
    simpa [eligible, and_assoc] using hel
  have hrel : eligible (release g.source (removeNode g env)) = true := by
    simp [eligible, release, hadmin, hsystem, hn.1, hn.2.1]
  refine ⟨?_, hid, rfl, ⟨?_, ?_, rfl⟩, before, after, hsplit, ?_⟩
  · have hrc : ∀ roles, persisted (removeRoleCalls env.roleFound roles
        ++ [Call.nodeRedeploy, Call.nodeCommit]) = none := by
      intro roles
      induction roles with
      | nil => simp [removeRoleCalls, persisted]
      | cons r rest ih =>
        by_cases hf : env.roleFound r = true
        · simp [removeRoleCalls, hf, persisted, ih]
        · simp [removeRoleCalls, hf, persisted, ih]
    unfold Remove
    by_cases hg : g.node = none
    · simp [hg, hup, persisted, hrc]
    · simp [hg, hup, persisted, hrc]
  · simp [release, hadmin, hn.1]
  · simp [release, hsystem, hn.2.1]
  · rw [scan_eq_find, List.find?_eq_some]
    refine ⟨hrel, before, after, rfl, hbefore⟩

/-- The release property at the node a complete `Create` claimed. -/
theorem Remove_then_scan_reselects_witness :
    (scan [nodeAdmin, nodeFree] none = some nodeFree
      ∧ ((removeNode globalsAfterCreate envRemoveOk).ID = nodeFree.ID
          ∧ (removeNode globalsAfterCreate envRemoveOk).Admin = nodeFree.Admin
          ∧ (removeNode globalsAfterCreate envRemoveOk).System = nodeFree.System)
      ∧ envRemoveOk.updateErr = none)
    ∧ (persisted (Remove (NewDriver "m1") globalsAfterCreate envRemoveOk).calls
          = some (release globalsAfterCreate.source (removeNode globalsAfterCreate envRemoveOk))
      ∧ (release globalsAfterCreate.source
            (removeNode globalsAfterCreate envRemoveOk)).ID = nodeFree.ID
      ∧ (release globalsAfterCreate.source
            (removeNode globalsAfterCreate envRemoveOk)).DeploymentID
          = globalsAfterCreate.source.ID
      ∧ ((release globalsAfterCreate.source
            (removeNode globalsAfterCreate envRemoveOk)).Admin = false
        ∧ (release globalsAfterCreate.source
            (removeNode globalsAfterCreate envRemoveOk)).System = false
        ∧ (release globalsAfterCreate.source
            (removeNode globalsAfterCreate envRemoveOk)).Available = true)
      ∧ ∃ before after, [nodeAdmin, nodeFree] = before ++ nodeFree :: after
          ∧ scan (before ++ release globalsAfterCreate.source
                (removeNode globalsAfterCreate envRemoveOk) :: after) none
              = some (release globalsAfterCreate.source
                (removeNode globalsAfterCreate envRemoveOk))) :=
  ⟨⟨by decide, ⟨by decide, by decide, by decide⟩, rfl⟩,
   Remove_then_scan_reselects (NewDriver "m1") globalsAfterCreate envRemoveOk
     [nodeAdmin, nodeFree] nodeFree (by decide) ⟨by decide, by decide, by decide⟩ rfl⟩

/-- C10, on the code: `GetIP` indexes `addresses[1]` and slices `addr[:sz-3]`
before it looks at the error, so a failed lookup with no address, a list of one
address, and a second address of two bytes each end in a run-time panic; with
two full addresses it returns the bytes of the second one but the last
three. -/
theorem GetIP_out_of_range :
    GetIP [] (some "connection refused") = Outcome.panicked
    ∧ GetIP ["fe80::5054:ff:fe12:3456/64"] none = Outcome.panicked
    ∧ GetIP ["fe80::5054:ff:fe12:3456/64", "ab"] none = Outcome.panicked
    ∧ GetIP ["fe80::5054:ff:fe12:3456/64", "192.168.124.81/24"] none
        = Outcome.returned (bytes "192.168.124.81", none)
    ∧ GetIP ["fe80::5054:ff:fe12:3456/64", "10.0.0.1/é24"] none
        = Outcome.returned (bytes "10.0.0.1/" ++ [0xC3], none) := by
  decide

end Crowbar
